import Mathlib

/-!
FarmaSathi backend: shallow embedding and verification.

A shallow Lean embedding of the FarmaSathi farmer-support backend
(`backend/app`): the query lifecycle routes (`routes/queries.py`), the
WebSocket connection manager (`routes/websocket.py`), the Pydantic
models (`models/query.py`, `models/notification.py`) and the degraded
"mock mode" storage selection (`database.py`).

MongoDB collections are modelled as Lean lists of documents in insertion
order; `insert_one` appends, `find_one_and_update` rewrites the first
document matching the `_id` filter and returns the post-update document
(`return_document=True`).  `datetime.utcnow()` values are abstract `Nat`
timestamps supplied by the caller.  HTTP outcomes are an `ApiError` sum
in `Except`; each route returns the `Except` result together with the
resulting store state (an HTTP error produced before a write leaves the
state unchanged, exactly as in the source, where the exception aborts
the handler).
-/

namespace FarmaSathi

/-- Embedding of `models/query.py` `QueryStatus`, a `str` enum; documents store the
string values, so statuses are embedded as `String` constants. -/
def QueryStatus.OPEN : String := "open"

def QueryStatus.ASSIGNED : String := "assigned"

def QueryStatus.RESOLVED : String := "resolved"

def QueryStatus.CLOSED : String := "closed"

/-- Embedding of `models/notification.py` `NotificationType`, a `str` enum. -/
def NotificationType.QUERY_SUBMITTED : String := "query_submitted"

def NotificationType.QUERY_ASSIGNED : String := "query_assigned"

def NotificationType.QUERY_REPLIED : String := "query_replied"

def NotificationType.QUERY_RESOLVED : String := "query_resolved"

def NotificationType.SYSTEM : String := "system"

/-- HTTP-level outcomes of a route, as raised via `HTTPException` (or, for
`internalError`, an exception escaping the handler into the global
500 handler of `main.py`).  `validationError` is FastAPI/Pydantic request
validation (422). -/
inductive ApiError where
  | validationError
  | badRequest
  | notFound
  | forbidden
  | conflict
  | internalError
deriving DecidableEq

/-- Request body of `POST /api/queries/submit` (`models/query.py`
`QueryCreate`, including the `QueryBase` fields). -/
structure QueryCreate where
  farmer_name : String
  farmer_id : String
  location : Option String
  crop_type : Option String
  query_text : String
  category : String
  urgency : String
  image_path : Option String
  audio_path : Option String
deriving DecidableEq

/-- Pydantic validation of `QueryCreate`: `query_text: str = Field(...,
min_length=10)` (`models/query.py` line 32).  FastAPI rejects the request
before the handler runs when this fails. -/
def QueryCreate.isValid (q : QueryCreate) : Bool :=
  10 ≤ q.query_text.length

/-- Request body of `POST /api/queries/{id}/reply` (`models/query.py`
`OfficerReply`). -/
structure OfficerReply where
  query_id : String
  reply_text : String
  mark_resolved : Bool
deriving DecidableEq

/-- Pydantic validation of `OfficerReply`: `reply_text: str = Field(...,
min_length=20)` (`models/query.py` line 73). -/
def OfficerReply.isValid (r : OfficerReply) : Bool :=
  20 ≤ r.reply_text.length

/-- A query document as stored in the `queries` collection by
`submit_query` and mutated by `assign_query` / `reply_to_query`. -/
structure QueryDoc where
  id : String
  farmer_name : String
  farmer_id : String
  location : Option String
  crop_type : Option String
  query_text : String
  category : String
  urgency : String
  image_path : Option String
  audio_path : Option String
  status : String
  assigned_to : Option String
  officer_name : Option String
  reply : Option String
  ai_analysis : Option String
  created_at : Nat
  updated_at : Option Nat
deriving DecidableEq

/-- A notification document as stored in the `notifications` collection. -/
structure NotificationDoc where
  user_id : String
  title : String
  message : String
  notification_type : String
  query_id : Option String
  created_at : Nat
  read : Bool
deriving DecidableEq

/-- Embedding of `models/query.py` `QueryResponse`, the HTTP response body. -/
structure QueryResponse where
  id : String
  farmer_name : String
  farmer_id : String
  location : Option String
  crop_type : Option String
  query_text : String
  category : String
  urgency : String
  image_path : Option String
  audio_path : Option String
  status : String
  assigned_to : Option String
  officer_name : Option String
  created_at : Nat
  updated_at : Option Nat
  ai_analysis : Option String
  reply : Option String
deriving DecidableEq

/-- The authenticated caller as produced by the security dependencies
(`app.utils.security`): a user id and a role string. -/
structure CurrentUser where
  user_id : String
  role : String
deriving DecidableEq

/-- Modelled from the spec: `app/utils/security.py` is absent from the
source tree (only its import sites exist).  Per the spec, `assign` and
`reply` are officer-only ("Precondition: caller has officer role"); the
`require_officer_role` dependency admits exactly the callers whose role
is `officer` and otherwise rejects the request before the handler runs. -/
def require_officer_role (cu : CurrentUser) : Bool :=
  cu.role = "officer"

/-- The two mutable collections the query routes touch, in insertion
order. -/
structure AppState where
  queries : List QueryDoc
  notifications : List NotificationDoc
deriving DecidableEq

/-- Validity of a Mongo id: `bson.ObjectId(query_id)` succeeds exactly on 24-character hex
strings; on anything else it raises, which the routes' `try/except`
blocks convert to 400 "Invalid query ID". -/
def isHexChar (c : Char) : Bool :=
  decide (('0' ≤ c ∧ c ≤ '9') ∨ ('a' ≤ c ∧ c ≤ 'f') ∨ ('A' ≤ c ∧ c ≤ 'F'))

def isValidObjectId (s : String) : Bool :=
  s.length = 24 && s.data.all isHexChar

/-- Mongo `find_one_and_update` with an `_id` filter, a `$set` update
`upd` and `return_document=True`: rewrite the first document whose id
matches, returning the post-update document and the new collection;
`none` when no document matches. -/
def findOneAndUpdate (docs : List QueryDoc) (qid : String)
    (upd : QueryDoc → QueryDoc) : Option (QueryDoc × List QueryDoc) :=
  match docs with
  | [] => none
  | d :: rest =>
    if d.id = qid then some (upd d, upd d :: rest)
    else
      match findOneAndUpdate rest qid upd with
      | none => none
      | some (r, rest') => some (r, d :: rest')

/-- Embedding of `QueryResponse(id=str(result._id), **rest)`, the response built from a stored
document by `assign_query` and `reply_to_query`. -/
def queryResponseOfDoc (d : QueryDoc) : QueryResponse :=
  { id := d.id
    farmer_name := d.farmer_name
    farmer_id := d.farmer_id
    location := d.location
    crop_type := d.crop_type
    query_text := d.query_text
    category := d.category
    urgency := d.urgency
    image_path := d.image_path
    audio_path := d.audio_path
    status := d.status
    assigned_to := d.assigned_to
    officer_name := d.officer_name
    created_at := d.created_at
    updated_at := d.updated_at
    ai_analysis := d.ai_analysis
    reply := d.reply }

/-- Embedding of `routes/queries.py` `submit_query` (lines 14–52).  `available` is
whether `get_queries_collection()` returned a real collection
(`database.py` returns `None` when no Mongo client is present);
`insert_one` on `None` raises `AttributeError`, which no handler code
catches, so the request fails with a 500 and nothing is written.

When available: the stored document is `{**query.dict(), "farmer_id":
current_user["user_id"], "status": OPEN, "created_at": now,
"assigned_to": None, "officer_name": None}` — the body's `farmer_id` is
overridden by the authenticated caller's id.  A `query_submitted`
notification addressed to `"all_officers"` is inserted.  The HTTP
response is rebuilt from `**query.dict()`, so it echoes the body's
`farmer_id`, not the stored one. -/
def submit_query (available : Bool) (query : QueryCreate)
    (current_user : CurrentUser) (st : AppState) (newId : String)
    (now : Nat) : Except ApiError QueryResponse × AppState :=
  if available = false then (Except.error ApiError.internalError, st)
  else
    let query_doc : QueryDoc :=
      { id := newId
        farmer_name := query.farmer_name
        farmer_id := current_user.user_id
        location := query.location
        crop_type := query.crop_type
        query_text := query.query_text
        category := query.category
        urgency := query.urgency
        image_path := query.image_path
        audio_path := query.audio_path
        status := QueryStatus.OPEN
        assigned_to := none
        officer_name := none
        reply := none
        ai_analysis := none
        created_at := now
        updated_at := none }
    let notification : NotificationDoc :=
      { user_id := "all_officers"
        title := "New Query Submitted"
        message := "New " ++ query.urgency ++ " query from " ++ query.farmer_name
        notification_type := NotificationType.QUERY_SUBMITTED
        query_id := some newId
        created_at := now
        read := false }
    let response : QueryResponse :=
      { id := newId
        farmer_name := query.farmer_name
        farmer_id := query.farmer_id
        location := query.location
        crop_type := query.crop_type
        query_text := query.query_text
        category := query.category
        urgency := query.urgency
        image_path := query.image_path
        audio_path := query.audio_path
        status := QueryStatus.OPEN
        assigned_to := none
        officer_name := none
        created_at := now
        updated_at := none
        ai_analysis := none
        reply := none }
    (Except.ok response,
      { queries := st.queries ++ [query_doc],
        notifications := st.notifications ++ [notification] })

/-- Endpoint `POST /api/queries/submit` including the framework layers that run
before the handler: Pydantic body validation (min length 10). -/
def submit_query_endpoint (available : Bool) (query : QueryCreate)
    (current_user : CurrentUser) (st : AppState) (newId : String)
    (now : Nat) : Except ApiError QueryResponse × AppState :=
  if query.isValid = false then (Except.error ApiError.validationError, st)
  else submit_query available query current_user st newId now

/-- Embedding of `routes/queries.py` `assign_query` (lines 131–179).  The update
filter is `{"_id": ObjectId(query_id)}` alone — no status condition —
and the `$set` unconditionally writes `status = ASSIGNED` and
`assigned_to = current_user["user_id"]`.  The surrounding bare
`try/except` turns any exception (a malformed id, or the
`AttributeError` from calling `find_one_and_update` on the `None`
collection in degraded mode) into 400 "Invalid query ID".  A missing
document yields 404 before any notification is written. -/
def assign_query (available : Bool) (query_id : String)
    (current_user : CurrentUser) (st : AppState) (now : Nat) :
    Except ApiError QueryResponse × AppState :=
  if available = false ∨ isValidObjectId query_id = false then
    (Except.error ApiError.badRequest, st)
  else
    match findOneAndUpdate st.queries query_id (fun d =>
      { d with status := QueryStatus.ASSIGNED,
               assigned_to := some current_user.user_id,
               updated_at := some now }) with
    | none => (Except.error ApiError.notFound, st)
    | some (result, queries') =>
      let notification : NotificationDoc :=
        { user_id := result.farmer_id
          title := "Query Assigned"
          message := "Your query has been assigned to an officer"
          notification_type := NotificationType.QUERY_ASSIGNED
          query_id := some query_id
          created_at := now
          read := false }
      (Except.ok (queryResponseOfDoc result),
        { queries := queries',
          notifications := st.notifications ++ [notification] })

/-- Endpoint `POST /api/queries/id/assign` including the `require_officer_role`
dependency resolved before the handler body. -/
def assign_query_endpoint (available : Bool) (query_id : String)
    (current_user : CurrentUser) (st : AppState) (now : Nat) :
    Except ApiError QueryResponse × AppState :=
  if require_officer_role current_user = false then
    (Except.error ApiError.forbidden, st)
  else assign_query available query_id current_user st now

/-- Embedding of `routes/queries.py` `reply_to_query` (lines 181–232).  The update
filter is again `{"_id": ObjectId(query_id)}` alone: any existing
document — whatever its status, including `closed` — gets
`reply`/`updated_at` set, plus `status = RESOLVED` when
`mark_resolved`.  The notification type is `QUERY_REPLIED` unless
`mark_resolved`, then `QUERY_RESOLVED`; its recipient is the stored
document's `farmer_id`. -/
def reply_to_query (available : Bool) (query_id : String)
    (reply : OfficerReply) (current_user : CurrentUser) (st : AppState)
    (now : Nat) : Except ApiError QueryResponse × AppState :=
  if available = false ∨ isValidObjectId query_id = false then
    (Except.error ApiError.badRequest, st)
  else
    let upd : QueryDoc → QueryDoc := fun d =>
      let d' := { d with reply := some reply.reply_text, updated_at := some now }
      if reply.mark_resolved then { d' with status := QueryStatus.RESOLVED }
      else d'
    match findOneAndUpdate st.queries query_id upd with
    | none => (Except.error ApiError.notFound, st)
    | some (result, queries') =>
      let notification : NotificationDoc :=
        { user_id := result.farmer_id
          title := if reply.mark_resolved = false then "Officer Replied"
                   else "Query Resolved"
          message := "An agricultural officer has responded to your query"
          notification_type :=
            if reply.mark_resolved = false then NotificationType.QUERY_REPLIED
            else NotificationType.QUERY_RESOLVED
          query_id := some query_id
          created_at := now
          read := false }
      (Except.ok (queryResponseOfDoc result),
        { queries := queries',
          notifications := st.notifications ++ [notification] })

/-- Endpoint `POST /api/queries/id/reply` including the `require_officer_role`
dependency and Pydantic body validation. -/
def reply_to_query_endpoint (available : Bool) (query_id : String)
    (reply : OfficerReply) (current_user : CurrentUser) (st : AppState)
    (now : Nat) : Except ApiError QueryResponse × AppState :=
  if require_officer_role current_user = false then
    (Except.error ApiError.forbidden, st)
  else if reply.isValid = false then
    (Except.error ApiError.validationError, st)
  else reply_to_query available query_id reply current_user st now

/-- Embedding of Mongo `count_documents(filter)` over the collection. -/
def count_documents (docs : List QueryDoc) (p : QueryDoc → Bool) : Nat :=
  (docs.filter p).length

/-- Python's `round(x, 2)` on the exact rational value: round half to
even at the second decimal. -/
def pythonRound (q : ℚ) : ℤ :=
  if q - ⌊q⌋ = 1 / 2 then (if ⌊q⌋ % 2 = 0 then ⌊q⌋ else ⌊q⌋ + 1)
  else ⌊q + 1 / 2⌋

def pythonRound2 (q : ℚ) : ℚ :=
  (pythonRound (q * 100) : ℚ) / 100

/-- The JSON body returned by `GET /api/queries/statistics/overview`. -/
structure Statistics where
  total : Nat
  open_count : Nat
  assigned : Nat
  resolved : Nat
  urgent : Nat
  resolution_rate : ℚ
deriving DecidableEq

/-- Embedding of `routes/queries.py` `get_statistics` (lines 234–252): five
`count_documents` calls and `round((resolved / total * 100) if total > 0
else 0, 2)`. -/
def get_statistics (docs : List QueryDoc) : Statistics :=
  let total := count_documents docs (fun _ => true)
  let open_count := count_documents docs (fun d => d.status = QueryStatus.OPEN)
  let assigned := count_documents docs (fun d => d.status = QueryStatus.ASSIGNED)
  let resolved := count_documents docs (fun d => d.status = QueryStatus.RESOLVED)
  let urgent := count_documents docs (fun d =>
    d.urgency = "high" && !(d.status = QueryStatus.RESOLVED : Bool))
  { total := total
    open_count := open_count
    assigned := assigned
    resolved := resolved
    urgent := urgent
    resolution_rate :=
      pythonRound2 (if 0 < total then (resolved : ℚ) / (total : ℚ) * 100 else 0) }

/-- Discriminator in the style of `Except.isOk`, used to state counterexamples. -/
def exceptIsOk : Except ApiError QueryResponse → Bool
  | Except.ok _ => true
  | Except.error _ => false

/-!
Connection manager (`routes/websocket.py`).

A WebSocket channel is identified by an id; `fails` models a socket
whose remote end is gone, so that `send_json` on it raises.  The
manager's `active_connections` dict is embedded as an association list
in Python-dict insertion order (a new key is appended at the end;
updating an existing key keeps its position).
-/

structure Channel where
  id : Nat
  fails : Bool
deriving DecidableEq

/-- An outbound JSON frame, e.g. `{"type": "notification", "data": ...}`. -/
structure WsMessage where
  type : String
  data : String
deriving DecidableEq

/-- A successful `send_json` on a channel: the pair records which
channel received which frame. -/
def Delivery : Type := Channel × WsMessage

/-- Embedding of `ConnectionManager.active_connections: Dict[str, List[WebSocket]]`. -/
structure ConnectionManager where
  active_connections : List (String × List Channel)
deriving DecidableEq

/-- Python dict lookup `d[user_id]` / `user_id in d` over the embedded
association list. -/
def lookupCM : List (String × List Channel) → String → Option (List Channel)
  | [], _ => none
  | e :: rest, uid => if e.1 = uid then some e.2 else lookupCM rest uid

/-- Python dict assignment `d[user_id] = chans` for a key that is
already present: the entry keeps its position. -/
def updateEntry : List (String × List Channel) → String → List Channel →
    List (String × List Channel)
  | [], _, _ => []
  | e :: rest, uid, chans =>
    if e.1 = uid then (uid, chans) :: updateEntry rest uid chans
    else e :: updateEntry rest uid chans

/-- Python `del d[user_id]`. -/
def removeKey : List (String × List Channel) → String →
    List (String × List Channel)
  | [], _ => []
  | e :: rest, uid =>
    if e.1 = uid then removeKey rest uid else e :: removeKey rest uid

/-- Embedding of `ConnectionManager.connect` (lines 16–24): create an empty list for
an unknown user, then append the channel. -/
def ConnectionManager.connect (m : ConnectionManager) (user_id : String)
    (ch : Channel) : ConnectionManager :=
  match lookupCM m.active_connections user_id with
  | none => ⟨m.active_connections ++ [(user_id, [ch])]⟩
  | some chans => ⟨updateEntry m.active_connections user_id (chans ++ [ch])⟩

/-- Embedding of `ConnectionManager.disconnect` (lines 26–34).  When the user key is
absent the `if` body is skipped and the manager is unchanged.  When
present, `list.remove(websocket)` removes the first occurrence — and
raises `ValueError` when the channel is not in the list, modelled as
`none`.  When the list becomes empty the user's entry is deleted
entirely. -/
def ConnectionManager.disconnect (m : ConnectionManager) (user_id : String)
    (ch : Channel) : Option ConnectionManager :=
  match lookupCM m.active_connections user_id with
  | none => some m
  | some chans =>
    if ch ∈ chans then
      (if chans.erase ch = [] then some ⟨removeKey m.active_connections user_id⟩
       else some ⟨updateEntry m.active_connections user_id (chans.erase ch)⟩)
    else none

/-- Embedding of `websocket.send_json(message)`: raises when the remote end is gone. -/
def send_json (ch : Channel) (message : WsMessage) :
    Except String Delivery :=
  if ch.fails then Except.error "connection closed" else Except.ok (ch, message)

/-- The per-channel `try: await connection.send_json(message) except:
pass` loop shared by `send_personal_message`, `broadcast_to_officers`
and `broadcast`: a failing send is swallowed and the loop continues, so
the loop itself never raises and returns the successful deliveries in
order. -/
def sendLoop : List Channel → WsMessage → List Delivery
  | [], _ => []
  | ch :: rest, message =>
    match send_json ch message with
    | Except.ok d => d :: sendLoop rest message
    | Except.error _ => sendLoop rest message

/-- Embedding of `ConnectionManager.send_personal_message` (lines 36–43): nothing is
sent (and nothing is raised) when the user has no registered channels. -/
def ConnectionManager.send_personal_message (m : ConnectionManager)
    (message : WsMessage) (user_id : String) : List Delivery :=
  match lookupCM m.active_connections user_id with
  | none => []
  | some chans => sendLoop chans message

/-- The officer-role predicate `user_id.startswith("officer_")` used by
`broadcast_to_officers` (line 49). -/
def isOfficerId (user_id : String) : Bool :=
  user_id.data.take 8 = "officer_".data

/-- Embedding of `ConnectionManager.broadcast_to_officers` (lines 45–54): iterate the
whole table and deliver to every channel of every user whose id
satisfies the officer predicate. -/
def broadcastLoop : List (String × List Channel) → WsMessage → List Delivery
  | [], _ => []
  | e :: rest, message =>
    (if isOfficerId e.1 then sendLoop e.2 message else []) ++
      broadcastLoop rest message

def ConnectionManager.broadcast_to_officers (m : ConnectionManager)
    (message : WsMessage) : List Delivery :=
  broadcastLoop m.active_connections message

/-- The registry invariant of the spec: no user key is mapped to an
empty channel list. -/
def noEmptyEntries (m : ConnectionManager) : Prop :=
  ∀ e ∈ m.active_connections, e.2 ≠ []

/-!
Concrete fixtures for counterexamples and witnesses.
-/

/-- A stored query document with the given id, status and assignee; the
remaining fields are fixed sample data. -/
def mkDoc (id : String) (status : String) (assigned_to : Option String) :
    QueryDoc :=
  { id := id
    farmer_name := "Ravi"
    farmer_id := "farmer_7"
    location := none
    crop_type := none
    query_text := "my paddy crop is wilting"
    category := "disease"
    urgency := "high"
    image_path := none
    audio_path := none
    status := status
    assigned_to := assigned_to
    officer_name := none
    reply := none
    ai_analysis := none
    created_at := 1
    updated_at := none }

/-- An authenticated officer caller. -/
def officerCU : CurrentUser := { user_id := "officer_two", role := "officer" }

/-- An authenticated farmer caller. -/
def farmerCU : CurrentUser := { user_id := "farmer_7", role := "farmer" }

/-- A valid submit body (24-character `query_text`). -/
def sampleQuery : QueryCreate :=
  { farmer_name := "Ravi"
    farmer_id := "farmer_7"
    location := none
    crop_type := none
    query_text := "my paddy crop is wilting"
    category := "disease"
    urgency := "high"
    image_path := none
    audio_path := none }

/-- A submit body whose `query_text` has exactly 9 characters. -/
def shortQuery : QueryCreate := { sampleQuery with query_text := "ninechars" }

/-- A submit body whose `query_text` has exactly 10 characters. -/
def tenQuery : QueryCreate := { sampleQuery with query_text := "wilt crops" }

/-- A store holding a single query that is already assigned. -/
def stC1 : AppState :=
  { queries := [mkDoc "aaaaaaaaaaaaaaaaaaaaaaaa" QueryStatus.ASSIGNED
      (some "officer_one")]
    notifications := [] }

/-- A store holding a single closed query. -/
def stC3 : AppState :=
  { queries := [mkDoc "cccccccccccccccccccccccc" QueryStatus.CLOSED none]
    notifications := [] }

/-- A valid officer reply (34-character text) with `mark_resolved`. -/
def replyC3 : OfficerReply :=
  { query_id := "cccccccccccccccccccccccc"
    reply_text := "please apply neem oil twice weekly"
    mark_resolved := true }

/-- A store holding a single assigned query, for the reply scenario. -/
def stC7 : AppState :=
  { queries := [mkDoc "ffffffffffffffffffffffff" QueryStatus.ASSIGNED
      (some "officer_one")]
    notifications := [] }

/-- A valid officer reply with exactly 25 characters of text. -/
def replyC7 : OfficerReply :=
  { query_id := "ffffffffffffffffffffffff"
    reply_text := "please spray neem oil now"
    mark_resolved := true }

/-- A store of two queries, one resolved and one open. -/
def docsC9 : List QueryDoc :=
  [mkDoc "dddddddddddddddddddddddd" QueryStatus.RESOLVED none,
   mkDoc "eeeeeeeeeeeeeeeeeeeeeeee" QueryStatus.OPEN none]

/-- A notification frame as sent by `send_notification`. -/
def sampleMsg : WsMessage := { type := "notification", data := "payload" }

/-- A registry with one user owning one dead and one live channel. -/
def mC8 : ConnectionManager :=
  ⟨[("farmer_1", [Channel.mk 1 true, Channel.mk 2 false])]⟩

/-- The query document `submit_query` inserts: the body fields with
`farmer_id` overridden by the authenticated caller's id and status
`open`.  Definitionally equal to the literal inside `submit_query`;
named so that theorems can refer to the stored document. -/
def submittedDoc (query : QueryCreate) (cu : CurrentUser) (newId : String)
    (now : Nat) : QueryDoc :=
  { id := newId
    farmer_name := query.farmer_name
    farmer_id := cu.user_id
    location := query.location
    crop_type := query.crop_type
    query_text := query.query_text
    category := query.category
    urgency := query.urgency
    image_path := query.image_path
    audio_path := query.audio_path
    status := QueryStatus.OPEN
    assigned_to := none
    officer_name := none
    reply := none
    ai_analysis := none
    created_at := now
    updated_at := none }

/-- The notification document `submit_query` inserts. -/
def submittedNotif (query : QueryCreate) (newId : String) (now : Nat) :
    NotificationDoc :=
  { user_id := "all_officers"
    title := "New Query Submitted"
    message := "New " ++ query.urgency ++ " query from " ++ query.farmer_name
    notification_type := NotificationType.QUERY_SUBMITTED
    query_id := some newId
    created_at := now
    read := false }

/-- The response `submit_query` returns, rebuilt from `**query.dict()`:
it echoes the body's `farmer_id`, not the stored one. -/
def submittedResponse (query : QueryCreate) (newId : String) (now : Nat) :
    QueryResponse :=
  { id := newId
    farmer_name := query.farmer_name
    farmer_id := query.farmer_id
    location := query.location
    crop_type := query.crop_type
    query_text := query.query_text
    category := query.category
    urgency := query.urgency
    image_path := query.image_path
    audio_path := query.audio_path
    status := QueryStatus.OPEN
    assigned_to := none
    officer_name := none
    created_at := now
    updated_at := none
    ai_analysis := none
    reply := none }

/-- The post-update document produced by `reply_to_query`'s `$set`. -/
def replyUpdatedDoc (doc : QueryDoc) (reply : OfficerReply) (now : Nat) :
    QueryDoc :=
  if reply.mark_resolved then
    { doc with reply := some reply.reply_text, updated_at := some now,
               status := QueryStatus.RESOLVED }
  else
    { doc with reply := some reply.reply_text, updated_at := some now }

/-- The notification document `reply_to_query` inserts. -/
def replyNotif (doc : QueryDoc) (reply : OfficerReply) (qid : String)
    (now : Nat) : NotificationDoc :=
  { user_id := doc.farmer_id
    title := if reply.mark_resolved = false then "Officer Replied"
             else "Query Resolved"
    message := "An agricultural officer has responded to your query"
    notification_type :=
      if reply.mark_resolved = false then NotificationType.QUERY_REPLIED
      else NotificationType.QUERY_RESOLVED
    query_id := some qid
    created_at := now
    read := false }

/-!
Helper lemmas about the embedded store and registry operations.
-/

theorem count_documents_true (docs : List QueryDoc) :
    count_documents docs (fun _ => true) = docs.length := by
  simp [count_documents]

theorem pythonRound2_zero : pythonRound2 0 = 0 := by
  norm_num [pythonRound2, pythonRound]

theorem findOneAndUpdate_eq_none (docs : List QueryDoc) (qid : String)
    (f : QueryDoc → QueryDoc) (h : ∀ d ∈ docs, d.id ≠ qid) :
    findOneAndUpdate docs qid f = none := by
  induction docs with
  | nil => rfl
  | cons d rest ih =>
    have hd : d.id ≠ qid := h d (by simp)
    have hrest := ih (fun e he => h e (by simp [he]))
    simp [findOneAndUpdate, hd, hrest]

theorem findOneAndUpdate_find?_some (docs : List QueryDoc) (qid : String)
    (f : QueryDoc → QueryDoc) (doc : QueryDoc)
    (h : docs.find? (fun e => decide (e.id = qid)) = some doc) :
    ∃ docs', findOneAndUpdate docs qid f = some (f doc, docs') ∧
      f doc ∈ docs' := by
  induction docs with
  | nil => simp at h
  | cons d rest ih =>
    by_cases hd : d.id = qid
    · have hdoc : doc = d := by
        rw [List.find?_cons_of_pos _ (by simpa using hd)] at h
        exact (Option.some.inj h).symm
      subst hdoc
      exact ⟨f doc :: rest, by simp [findOneAndUpdate, hd], by simp⟩
    · rw [List.find?_cons_of_neg _ (by simpa using hd)] at h
      obtain ⟨docs', hEq, hMem⟩ := ih h
      exact ⟨d :: docs', by simp [findOneAndUpdate, hd, hEq], by simp [hMem]⟩

theorem sendLoop_eq_filter (chans : List Channel) (message : WsMessage) :
    sendLoop chans message
      = (chans.filter (fun ch => !ch.fails)).map (fun ch => (ch, message)) := by
  induction chans with
  | nil => rfl
  | cons ch rest ih =>
    cases hf : ch.fails <;>
      simp [sendLoop, send_json, hf, ih, List.filter_cons]

theorem lookupCM_eq_none (l : List (String × List Channel)) (uid : String)
    (h : lookupCM l uid = none) : ∀ e ∈ l, e.1 ≠ uid := by
  induction l with
  | nil => simp
  | cons a rest ih =>
    by_cases hd : a.1 = uid
    · rw [lookupCM, if_pos hd] at h
      cases h
    · rw [lookupCM, if_neg hd] at h
      intro e he
      rcases List.mem_cons.mp he with rfl | hmem
      · exact hd
      · exact ih h e hmem

theorem lookupCM_append_left_none (l1 l2 : List (String × List Channel))
    (uid : String) (h : lookupCM l1 uid = none) :
    lookupCM (l1 ++ l2) uid = lookupCM l2 uid := by
  induction l1 with
  | nil => rfl
  | cons a rest ih =>
    by_cases hd : a.1 = uid
    · rw [lookupCM, if_pos hd] at h
      cases h
    · rw [lookupCM, if_neg hd] at h
      rw [List.cons_append, lookupCM, if_neg hd]
      exact ih h

theorem updateEntry_append_fresh (l : List (String × List Channel))
    (uid : String) (w v : List Channel) (h : ∀ e ∈ l, e.1 ≠ uid) :
    updateEntry (l ++ [(uid, w)]) uid v = l ++ [(uid, v)] := by
  induction l with
  | nil => simp [updateEntry]
  | cons a rest ih =>
    have ha : a.1 ≠ uid := h a (by simp)
    have hrest := ih (fun e he => h e (by simp [he]))
    simp [updateEntry, ha, hrest]

theorem removeKey_append_fresh (l : List (String × List Channel))
    (uid : String) (w : List Channel) (h : ∀ e ∈ l, e.1 ≠ uid) :
    removeKey (l ++ [(uid, w)]) uid = l := by
  induction l with
  | nil => simp [removeKey]
  | cons a rest ih =>
    have ha : a.1 ≠ uid := h a (by simp)
    have hrest := ih (fun e he => h e (by simp [he]))
    simp [removeKey, ha, hrest]

theorem mem_updateEntry (l : List (String × List Channel)) (uid : String)
    (v : List Channel) (e : String × List Channel)
    (h : e ∈ updateEntry l uid v) : e = (uid, v) ∨ e ∈ l := by
  induction l with
  | nil => simp [updateEntry] at h
  | cons a rest ih =>
    by_cases hd : a.1 = uid
    · rw [updateEntry, if_pos hd] at h
      rcases List.mem_cons.mp h with rfl | hmem
      · exact Or.inl rfl
      · rcases ih hmem with he | he
        · exact Or.inl he
        · exact Or.inr (List.mem_cons_of_mem _ he)
    · rw [updateEntry, if_neg hd] at h
      rcases List.mem_cons.mp h with rfl | hmem
      · exact Or.inr (List.mem_cons_self _ _)
      · rcases ih hmem with he | he
        · exact Or.inl he
        · exact Or.inr (List.mem_cons_of_mem _ he)

theorem mem_removeKey (l : List (String × List Channel)) (uid : String)
    (e : String × List Channel) (h : e ∈ removeKey l uid) : e ∈ l := by
  induction l with
  | nil => simp [removeKey] at h
  | cons a rest ih =>
    by_cases hd : a.1 = uid
    · rw [removeKey, if_pos hd] at h
      exact List.mem_cons_of_mem _ (ih h)
    · rw [removeKey, if_neg hd] at h
      rcases List.mem_cons.mp h with rfl | hmem
      · exact List.mem_cons_self _ _
      · exact List.mem_cons_of_mem _ (ih hmem)

theorem noEmptyEntries_connect (m : ConnectionManager) (u : String)
    (c : Channel) (h : noEmptyEntries m) :
    noEmptyEntries (m.connect u c) := by
  unfold ConnectionManager.connect
  cases hl : lookupCM m.active_connections u with
  | none =>
    intro e he
    rcases List.mem_append.mp he with hm | hm
    · exact h e hm
    · simp only [List.mem_singleton] at hm
      subst hm
      simp
  | some chans =>
    intro e he
    rcases mem_updateEntry _ _ _ _ he with rfl | hm
    · simp
    · exact h e hm

theorem noEmptyEntries_disconnect (m m' : ConnectionManager) (u : String)
    (c : Channel) (h : noEmptyEntries m) (hd : m.disconnect u c = some m') :
    noEmptyEntries m' := by
  unfold ConnectionManager.disconnect at hd
  split at hd
  · cases hd
    exact h
  · split at hd
    · split at hd
      · cases hd
        intro e hmem
        exact h e (mem_removeKey _ _ _ hmem)
      · cases hd
        intro e hmem
        rename_i chans _ he
        rcases mem_updateEntry _ _ _ _ hmem with rfl | hm
        · exact he
        · exact h e hm
    · cases hd

/-!
Claim theorems.
-/

/-- C1 counterexample: on a store holding a single query that is already
in `assigned` status (assigned to `officer_one`), a second officer's
assign call does not fail with Conflict — it succeeds and overwrites
`assigned_to` with the caller's id, contradicting the claim that assign
fails on non-`open` queries and leaves `assigned_to` unchanged. -/
theorem assign_already_assigned_overwrites_cx :
    stC1.queries.map QueryDoc.status = [QueryStatus.ASSIGNED] ∧
    stC1.queries.map QueryDoc.assigned_to = [some "officer_one"] ∧
    exceptIsOk
      (assign_query_endpoint true "aaaaaaaaaaaaaaaaaaaaaaaa" officerCU stC1 5).1
      = true ∧
    (assign_query_endpoint true "aaaaaaaaaaaaaaaaaaaaaaaa" officerCU stC1 5).2.queries.map
      QueryDoc.assigned_to = [some "officer_two"] := by
  decide

/-- C1 (amended): `assign_query` performs an unconditional update — the
filter is the id alone, with no status condition — so assign succeeds on
every existing query regardless of its current status (including
`assigned` and `resolved`), setting status to `assigned` and overwriting
`assigned_to` with the caller's id, and emitting a `query_assigned`
notification; no Conflict error exists in the route. -/
theorem assign_unconditional_overwrite (st : AppState) (query_id : String)
    (doc : QueryDoc) (cu : CurrentUser) (now : Nat)
    (hid : isValidObjectId query_id = true)
    (hrole : require_officer_role cu = true)
    (hfind : st.queries.find? (fun e => decide (e.id = query_id)) = some doc) :
    ∃ queries',
      assign_query_endpoint true query_id cu st now
        = (Except.ok (queryResponseOfDoc
            { doc with status := QueryStatus.ASSIGNED,
                       assigned_to := some cu.user_id,
                       updated_at := some now }),
           { queries := queries',
             notifications := st.notifications ++
               [{ user_id := doc.farmer_id
                  title := "Query Assigned"
                  message := "Your query has been assigned to an officer"
                  notification_type := NotificationType.QUERY_ASSIGNED
                  query_id := some query_id
                  created_at := now
                  read := false }] }) ∧
      { doc with status := QueryStatus.ASSIGNED,
                 assigned_to := some cu.user_id,
                 updated_at := some now } ∈ queries' := by
  obtain ⟨docs', hEq, hMem⟩ := findOneAndUpdate_find?_some st.queries query_id
    (fun d => { d with status := QueryStatus.ASSIGNED,
                       assigned_to := some cu.user_id,
                       updated_at := some now }) doc hfind
  refine ⟨docs', ?_, hMem⟩
  simp [assign_query_endpoint, assign_query, hrole, hid, hEq]

/-- C1 witness: the amended theorem applied to the already-assigned
store of the counterexample. -/
theorem assign_unconditional_overwrite_witness :
    ∃ queries',
      assign_query_endpoint true "aaaaaaaaaaaaaaaaaaaaaaaa" officerCU stC1 5
        = (Except.ok (queryResponseOfDoc
            { mkDoc "aaaaaaaaaaaaaaaaaaaaaaaa" QueryStatus.ASSIGNED
                (some "officer_one") with
              status := QueryStatus.ASSIGNED,
              assigned_to := some officerCU.user_id,
              updated_at := some 5 }),
           { queries := queries',
             notifications := stC1.notifications ++
               [{ user_id :=
                    (mkDoc "aaaaaaaaaaaaaaaaaaaaaaaa" QueryStatus.ASSIGNED
                      (some "officer_one")).farmer_id
                  title := "Query Assigned"
                  message := "Your query has been assigned to an officer"
                  notification_type := NotificationType.QUERY_ASSIGNED
                  query_id := some "aaaaaaaaaaaaaaaaaaaaaaaa"
                  created_at := 5
                  read := false }] }) ∧
      { mkDoc "aaaaaaaaaaaaaaaaaaaaaaaa" QueryStatus.ASSIGNED
          (some "officer_one") with
        status := QueryStatus.ASSIGNED,
        assigned_to := some officerCU.user_id,
        updated_at := some 5 } ∈ queries' :=
  assign_unconditional_overwrite stC1 "aaaaaaaaaaaaaaaaaaaaaaaa"
    (mkDoc "aaaaaaaaaaaaaaaaaaaaaaaa" QueryStatus.ASSIGNED (some "officer_one"))
    officerCU 5 (by decide) (by decide) (by decide)

/-- C3 counterexample: on a store holding a single `closed` query, the
reply operation does not fail with NotFound or InvalidTransition — it
succeeds and persists a notification (the store goes from zero to one
notification), contradicting the claim that replying to a closed query
fails and produces no event. -/
theorem reply_closed_query_succeeds_cx :
    stC3.queries.map QueryDoc.status = [QueryStatus.CLOSED] ∧
    stC3.notifications.length = 0 ∧
    exceptIsOk
      (reply_to_query_endpoint true "cccccccccccccccccccccccc" replyC3
        officerCU stC3 9).1 = true ∧
    (reply_to_query_endpoint true "cccccccccccccccccccccccc" replyC3
        officerCU stC3 9).2.notifications.length = 1 := by
  decide

/-- C3 (amended): replying to a `closed` query does not fail — the reply
route filters on the id alone, so the reply is applied and a
notification is persisted; assigning a non-existent (well-formed) query
id, by contrast, does fail with NotFound, leaves the store unchanged and
produces no event. -/
theorem reply_closed_succeeds_assign_missing_not_found :
    (∀ (st : AppState) (qid : String) (doc : QueryDoc) (r : OfficerReply)
       (cu : CurrentUser) (now : Nat),
      isValidObjectId qid = true →
      require_officer_role cu = true →
      OfficerReply.isValid r = true →
      st.queries.find? (fun e => decide (e.id = qid)) = some doc →
      doc.status = QueryStatus.CLOSED →
      exceptIsOk (reply_to_query_endpoint true qid r cu st now).1 = true ∧
      (reply_to_query_endpoint true qid r cu st now).2.notifications.length
        = st.notifications.length + 1) ∧
    (∀ (st : AppState) (qid : String) (cu : CurrentUser) (now : Nat),
      isValidObjectId qid = true →
      require_officer_role cu = true →
      (∀ d ∈ st.queries, d.id ≠ qid) →
      assign_query_endpoint true qid cu st now
        = (Except.error ApiError.notFound, st)) := by
  constructor
  · intro st qid doc r cu now hid hrole hval hfind _hclosed
    obtain ⟨docs', hEq, _⟩ := findOneAndUpdate_find?_some st.queries qid
      (fun d =>
        if r.mark_resolved then
          { d with reply := some r.reply_text, updated_at := some now,
                   status := QueryStatus.RESOLVED }
        else { d with reply := some r.reply_text, updated_at := some now })
      doc hfind
    constructor <;>
      simp [reply_to_query_endpoint, reply_to_query, hrole, hval, hid, hEq,
        exceptIsOk]
  · intro st qid cu now hid hrole habsent
    have hnone := findOneAndUpdate_eq_none st.queries qid
      (fun d => { d with status := QueryStatus.ASSIGNED,
                         assigned_to := some cu.user_id,
                         updated_at := some now }) habsent
    simp [assign_query_endpoint, assign_query, hrole, hid, hnone]

/-- C3 witness: the amended theorem applied to the closed-query store
(reply half) and to a well-formed id absent from that store (assign
half). -/
theorem reply_closed_succeeds_assign_missing_witness :
    (exceptIsOk
      (reply_to_query_endpoint true "cccccccccccccccccccccccc" replyC3
        officerCU stC3 9).1 = true ∧
     (reply_to_query_endpoint true "cccccccccccccccccccccccc" replyC3
        officerCU stC3 9).2.notifications.length
       = stC3.notifications.length + 1) ∧
    assign_query_endpoint true "0123456789abcdef01234567" officerCU stC3 9
      = (Except.error ApiError.notFound, stC3) :=
  ⟨reply_closed_succeeds_assign_missing_not_found.1 stC3
      "cccccccccccccccccccccccc"
      (mkDoc "cccccccccccccccccccccccc" QueryStatus.CLOSED none) replyC3
      officerCU 9 (by decide) (by decide) (by decide) (by decide) (by decide),
   reply_closed_succeeds_assign_missing_not_found.2 stC3
      "0123456789abcdef01234567" officerCU 9 (by decide) (by decide)
      (by decide)⟩

/-- C4 (code bug): in degraded mode — the backing store unavailable, so
`get_queries_collection()` yields `None` — none of the query operations
function against an in-memory fallback: submit crashes with an uncaught
`AttributeError` (HTTP 500) and assign/reply turn the same failure into
HTTP 400 via their bare `except` blocks; in every case the request
fails and nothing is stored, although `database.py` declares
`mock_queries` as "In-memory storage when MongoDB unavailable" and the
auth routes do implement that fallback. -/
theorem degraded_mode_query_routes_fail (q : QueryCreate) (r : OfficerReply)
    (qid : String) (cu : CurrentUser) (st : AppState) (newId : String)
    (now : Nat) (hq : QueryCreate.isValid q = true)
    (hr : OfficerReply.isValid r = true)
    (hrole : require_officer_role cu = true) :
    submit_query_endpoint false q cu st newId now
      = (Except.error ApiError.internalError, st) ∧
    assign_query_endpoint false qid cu st now
      = (Except.error ApiError.badRequest, st) ∧
    reply_to_query_endpoint false qid r cu st now
      = (Except.error ApiError.badRequest, st) := by
  refine ⟨?_, ?_, ?_⟩ <;>
    simp [submit_query_endpoint, submit_query, assign_query_endpoint,
      assign_query, reply_to_query_endpoint, reply_to_query, hq, hr, hrole]

/-- C4 witness: the degraded-mode theorem applied to concrete valid
requests. -/
theorem degraded_mode_query_routes_fail_witness :
    submit_query_endpoint false sampleQuery farmerCU
        { queries := [], notifications := [] } "aaaaaaaaaaaaaaaaaaaaaaaa" 3
      = (Except.error ApiError.internalError,
         { queries := [], notifications := [] }) ∧
    assign_query_endpoint false "aaaaaaaaaaaaaaaaaaaaaaaa" officerCU
        { queries := [], notifications := [] } 3
      = (Except.error ApiError.badRequest,
         { queries := [], notifications := [] }) ∧
    reply_to_query_endpoint false "aaaaaaaaaaaaaaaaaaaaaaaa" replyC3 officerCU
        { queries := [], notifications := [] } 3
      = (Except.error ApiError.badRequest,
         { queries := [], notifications := [] }) :=
  degraded_mode_query_routes_fail sampleQuery replyC3 "aaaaaaaaaaaaaaaaaaaaaaaa"
    officerCU { queries := [], notifications := [] } "aaaaaaaaaaaaaaaaaaaaaaaa"
    3 (by decide) (by decide) (by decide)

/-- C6: a submit body whose `query_text` has 9 characters is rejected by
validation (min length 10) and writes nothing; with 10 characters the
submit succeeds, the stored query has status `open`, and a
`query_submitted` notification addressed to the `all_officers`
role-broadcast token is persisted. -/
theorem submit_min_length_boundary (query : QueryCreate) (cu : CurrentUser)
    (st : AppState) (newId : String) (now : Nat) :
    (query.query_text.length = 9 →
      submit_query_endpoint true query cu st newId now
        = (Except.error ApiError.validationError, st)) ∧
    (query.query_text.length = 10 →
      submit_query_endpoint true query cu st newId now
        = (Except.ok (submittedResponse query newId now),
           { queries := st.queries ++ [submittedDoc query cu newId now],
             notifications :=
               st.notifications ++ [submittedNotif query newId now] }) ∧
      (submittedDoc query cu newId now).status = QueryStatus.OPEN ∧
      (submittedNotif query newId now).notification_type
        = NotificationType.QUERY_SUBMITTED ∧
      (submittedNotif query newId now).user_id = "all_officers") := by
  constructor
  · intro h
    simp [submit_query_endpoint, QueryCreate.isValid, h]
  · intro h
    have hv : QueryCreate.isValid query = true := by
      simp [QueryCreate.isValid, h]
    refine ⟨?_, rfl, rfl, rfl⟩
    simp [submit_query_endpoint, submit_query, hv, submittedResponse,
      submittedDoc, submittedNotif]

/-- C6 witness: the boundary theorem applied to concrete 9- and
10-character bodies. -/
theorem submit_min_length_boundary_witness :
    submit_query_endpoint true shortQuery farmerCU
        { queries := [], notifications := [] } "aaaaaaaaaaaaaaaaaaaaaaaa" 3
      = (Except.error ApiError.validationError,
         { queries := [], notifications := [] }) ∧
    (submit_query_endpoint true tenQuery farmerCU
        { queries := [], notifications := [] } "aaaaaaaaaaaaaaaaaaaaaaaa" 3
      = (Except.ok (submittedResponse tenQuery "aaaaaaaaaaaaaaaaaaaaaaaa" 3),
         { queries := [submittedDoc tenQuery farmerCU "aaaaaaaaaaaaaaaaaaaaaaaa" 3],
           notifications := [submittedNotif tenQuery "aaaaaaaaaaaaaaaaaaaaaaaa" 3] }) ∧
      (submittedDoc tenQuery farmerCU "aaaaaaaaaaaaaaaaaaaaaaaa" 3).status
        = QueryStatus.OPEN ∧
      (submittedNotif tenQuery "aaaaaaaaaaaaaaaaaaaaaaaa" 3).notification_type
        = NotificationType.QUERY_SUBMITTED ∧
      (submittedNotif tenQuery "aaaaaaaaaaaaaaaaaaaaaaaa" 3).user_id
        = "all_officers") :=
  ⟨(submit_min_length_boundary shortQuery farmerCU
      { queries := [], notifications := [] } "aaaaaaaaaaaaaaaaaaaaaaaa" 3).1
      (by decide),
   (submit_min_length_boundary tenQuery farmerCU
      { queries := [], notifications := [] } "aaaaaaaaaaaaaaaaaaaaaaaa" 3).2
      (by decide)⟩

/-- C7: replying to an assigned query with valid text stores the reply;
with `mark_resolved` the query's status becomes `resolved` and the
persisted notification has type `query_resolved`, addressed to the
query's `farmer_id`; without `mark_resolved` the notification type is
`query_replied`. -/
theorem reply_resolves_and_notifies (st : AppState) (query_id : String)
    (doc : QueryDoc) (reply : OfficerReply) (cu : CurrentUser) (now : Nat)
    (hid : isValidObjectId query_id = true)
    (hrole : require_officer_role cu = true)
    (hlen : OfficerReply.isValid reply = true)
    (hfind : st.queries.find? (fun e => decide (e.id = query_id)) = some doc)
    (hstatus : doc.status = QueryStatus.ASSIGNED) :
    ∃ queries',
      reply_to_query_endpoint true query_id reply cu st now
        = (Except.ok (queryResponseOfDoc (replyUpdatedDoc doc reply now)),
           { queries := queries',
             notifications :=
               st.notifications ++ [replyNotif doc reply query_id now] }) ∧
      replyUpdatedDoc doc reply now ∈ queries' ∧
      (replyUpdatedDoc doc reply now).reply = some reply.reply_text ∧
      (reply.mark_resolved = true →
        (replyUpdatedDoc doc reply now).status = QueryStatus.RESOLVED) ∧
      (replyNotif doc reply query_id now).user_id = doc.farmer_id ∧
      (reply.mark_resolved = true →
        (replyNotif doc reply query_id now).notification_type
          = NotificationType.QUERY_RESOLVED) ∧
      (reply.mark_resolved = false →
        (replyNotif doc reply query_id now).notification_type
          = NotificationType.QUERY_REPLIED) := by
  obtain ⟨docs', hEq, hMem⟩ := findOneAndUpdate_find?_some st.queries query_id
    (fun d =>
      if reply.mark_resolved then
        { d with reply := some reply.reply_text, updated_at := some now,
                 status := QueryStatus.RESOLVED }
      else { d with reply := some reply.reply_text, updated_at := some now })
    doc hfind
  cases hm : reply.mark_resolved
  · rw [hm] at hEq hMem
    simp only [if_neg Bool.false_ne_true] at hEq hMem
    refine ⟨docs', ?_, ?_, ?_, ?_, ?_, ?_, ?_⟩ <;>
      simp [reply_to_query_endpoint, reply_to_query, hrole, hlen, hid, hm,
        hEq, hMem, replyUpdatedDoc, replyNotif, queryResponseOfDoc]
  · rw [hm] at hEq hMem
    simp only [if_pos] at hEq hMem
    refine ⟨docs', ?_, ?_, ?_, ?_, ?_, ?_, ?_⟩ <;>
      simp [reply_to_query_endpoint, reply_to_query, hrole, hlen, hid, hm,
        hEq, hMem, replyUpdatedDoc, replyNotif, queryResponseOfDoc]

/-- C7 witness: the reply theorem applied to an assigned query and a
25-character resolving reply. -/
theorem reply_resolves_and_notifies_witness :
    ∃ queries',
      reply_to_query_endpoint true "ffffffffffffffffffffffff" replyC7
          officerCU stC7 9
        = (Except.ok (queryResponseOfDoc
            (replyUpdatedDoc
              (mkDoc "ffffffffffffffffffffffff" QueryStatus.ASSIGNED
                (some "officer_one")) replyC7 9)),
           { queries := queries',
             notifications := stC7.notifications ++
               [replyNotif
                 (mkDoc "ffffffffffffffffffffffff" QueryStatus.ASSIGNED
                   (some "officer_one")) replyC7 "ffffffffffffffffffffffff" 9] }) ∧
      replyUpdatedDoc
          (mkDoc "ffffffffffffffffffffffff" QueryStatus.ASSIGNED
            (some "officer_one")) replyC7 9 ∈ queries' ∧
      (replyUpdatedDoc
          (mkDoc "ffffffffffffffffffffffff" QueryStatus.ASSIGNED
            (some "officer_one")) replyC7 9).reply
        = some replyC7.reply_text ∧
      (replyC7.mark_resolved = true →
        (replyUpdatedDoc
            (mkDoc "ffffffffffffffffffffffff" QueryStatus.ASSIGNED
              (some "officer_one")) replyC7 9).status
          = QueryStatus.RESOLVED) ∧
      (replyNotif
          (mkDoc "ffffffffffffffffffffffff" QueryStatus.ASSIGNED
            (some "officer_one")) replyC7 "ffffffffffffffffffffffff" 9).user_id
        = (mkDoc "ffffffffffffffffffffffff" QueryStatus.ASSIGNED
            (some "officer_one")).farmer_id ∧
      (replyC7.mark_resolved = true →
        (replyNotif
            (mkDoc "ffffffffffffffffffffffff" QueryStatus.ASSIGNED
              (some "officer_one")) replyC7 "ffffffffffffffffffffffff" 9).notification_type
          = NotificationType.QUERY_RESOLVED) ∧
      (replyC7.mark_resolved = false →
        (replyNotif
            (mkDoc "ffffffffffffffffffffffff" QueryStatus.ASSIGNED
              (some "officer_one")) replyC7 "ffffffffffffffffffffffff" 9).notification_type
          = NotificationType.QUERY_REPLIED) :=
  reply_resolves_and_notifies stC7 "ffffffffffffffffffffffff"
    (mkDoc "ffffffffffffffffffffffff" QueryStatus.ASSIGNED (some "officer_one"))
    replyC7 officerCU 9 (by decide) (by decide) (by decide) (by decide)
    (by decide)

/-- C9 counterexample: on a store of two queries with one resolved, the
returned resolution rate is 50 — the percentage `resolved/total*100` —
whereas the claimed value `resolved/total` rounded to two decimals is
1/2; the two differ. -/
theorem resolution_rate_is_percentage_cx :
    (get_statistics docsC9).resolution_rate = 50 ∧
    pythonRound2 ((count_documents docsC9
        (fun d => decide (d.status = QueryStatus.RESOLVED)) : ℚ)
      / (docsC9.length : ℚ)) = 1 / 2 ∧
    (50 : ℚ) ≠ 1 / 2 := by
  have h1 : count_documents docsC9 (fun _ => true) = 2 := by decide
  have h2 : count_documents docsC9
      (fun d => decide (d.status = QueryStatus.RESOLVED)) = 1 := by decide
  have h3 : docsC9.length = 2 := rfl
  refine ⟨?_, ?_, by norm_num⟩
  · simp only [get_statistics, h1, h2]
    norm_num [pythonRound2, pythonRound]
  · rw [h2, h3]
    norm_num [pythonRound2, pythonRound]

/-- C9 (amended): the resolution rate returned by `get_statistics` is
`resolved/total * 100` — a percentage — rounded to two decimal places,
and 0 when the store holds no queries. -/
theorem resolution_rate_formula (docs : List QueryDoc) :
    (get_statistics docs).resolution_rate
      = (if 0 < docs.length then
          pythonRound2
            ((count_documents docs
                (fun d => decide (d.status = QueryStatus.RESOLVED)) : ℚ)
              / (docs.length : ℚ) * 100)
        else 0) := by
  simp only [get_statistics, count_documents_true]
  by_cases h : 0 < docs.length
  · simp [h]
  · simp [h, pythonRound2_zero]

/-- C10: the stored query's owner is the authenticated caller, whatever
`farmer_id` the request body carries — two submissions differing only in
the body's `farmer_id` write identical stores — while the HTTP response
echoes the body's `farmer_id` back. -/
theorem submit_overrides_body_farmer_id (query : QueryCreate) (fid2 : String)
    (cu : CurrentUser) (st : AppState) (newId : String) (now : Nat)
    (hv : QueryCreate.isValid query = true) :
    (submit_query_endpoint true query cu st newId now).2
      = (submit_query_endpoint true { query with farmer_id := fid2 } cu st
          newId now).2 ∧
    (submit_query_endpoint true query cu st newId now).2.queries
      = st.queries ++ [submittedDoc query cu newId now] ∧
    (submittedDoc query cu newId now).farmer_id = cu.user_id ∧
    (submit_query_endpoint true query cu st newId now).1
      = Except.ok (submittedResponse query newId now) ∧
    (submittedResponse query newId now).farmer_id = query.farmer_id ∧
    (submit_query_endpoint true { query with farmer_id := fid2 } cu st
        newId now).1
      = Except.ok (submittedResponse { query with farmer_id := fid2 } newId now) ∧
    (submittedResponse { query with farmer_id := fid2 } newId now).farmer_id
      = fid2 := by
  have hv2 : QueryCreate.isValid { query with farmer_id := fid2 } = true := hv
  refine ⟨?_, ?_, rfl, ?_, rfl, ?_, rfl⟩ <;>
    simp [submit_query_endpoint, submit_query, hv, hv2, submittedDoc,
      submittedNotif, submittedResponse]

/-- C10 witness: the override theorem applied to a concrete body and a
spoofed `farmer_id`. -/
theorem submit_overrides_body_farmer_id_witness :
    (submit_query_endpoint true sampleQuery farmerCU
        { queries := [], notifications := [] } "aaaaaaaaaaaaaaaaaaaaaaaa" 3).2
      = (submit_query_endpoint true { sampleQuery with farmer_id := "spoofed" }
          farmerCU { queries := [], notifications := [] }
          "aaaaaaaaaaaaaaaaaaaaaaaa" 3).2 ∧
    (submit_query_endpoint true sampleQuery farmerCU
        { queries := [], notifications := [] } "aaaaaaaaaaaaaaaaaaaaaaaa" 3).2.queries
      = [] ++ [submittedDoc sampleQuery farmerCU "aaaaaaaaaaaaaaaaaaaaaaaa" 3] ∧
    (submittedDoc sampleQuery farmerCU "aaaaaaaaaaaaaaaaaaaaaaaa" 3).farmer_id
      = farmerCU.user_id ∧
    (submit_query_endpoint true sampleQuery farmerCU
        { queries := [], notifications := [] } "aaaaaaaaaaaaaaaaaaaaaaaa" 3).1
      = Except.ok (submittedResponse sampleQuery "aaaaaaaaaaaaaaaaaaaaaaaa" 3) ∧
    (submittedResponse sampleQuery "aaaaaaaaaaaaaaaaaaaaaaaa" 3).farmer_id
      = sampleQuery.farmer_id ∧
    (submit_query_endpoint true { sampleQuery with farmer_id := "spoofed" }
        farmerCU { queries := [], notifications := [] }
        "aaaaaaaaaaaaaaaaaaaaaaaa" 3).1
      = Except.ok (submittedResponse { sampleQuery with farmer_id := "spoofed" }
          "aaaaaaaaaaaaaaaaaaaaaaaa" 3) ∧
    (submittedResponse { sampleQuery with farmer_id := "spoofed" }
        "aaaaaaaaaaaaaaaaaaaaaaaa" 3).farmer_id = "spoofed" :=
  submit_overrides_body_farmer_id sampleQuery "spoofed" farmerCU
    { queries := [], notifications := [] } "aaaaaaaaaaaaaaaaaaaaaaaa" 3
    (by decide)

/-- C2: with two channels registered under officer ids and one channel
under a farmer id, `broadcast_to_officers` delivers the frame to exactly
the two officer channels — the farmer channel receives nothing.  The
officer predicate is the one the source uses: the registered user id
begins with `officer_`. -/
theorem broadcast_reaches_exactly_officer_channels (u1 u2 uf : String)
    (a b c : Channel) (message : WsMessage)
    (h1 : isOfficerId u1 = true) (h2 : isOfficerId u2 = true)
    (hf : isOfficerId uf = false)
    (ha : a.fails = false) (hb : b.fails = false)
    (hca : c ≠ a) (hcb : c ≠ b) :
    ConnectionManager.broadcast_to_officers
        (ConnectionManager.connect (ConnectionManager.connect
          (ConnectionManager.connect ⟨[]⟩ u1 a) u2 b) uf c) message
      = [(a, message), (b, message)] ∧
    (c, message) ∉ ConnectionManager.broadcast_to_officers
        (ConnectionManager.connect (ConnectionManager.connect
          (ConnectionManager.connect ⟨[]⟩ u1 a) u2 b) uf c) message := by
  have hu1f : u1 ≠ uf := by
    intro h
    rw [h, hf] at h1
    exact Bool.false_ne_true h1
  have hu2f : u2 ≠ uf := by
    intro h
    rw [h, hf] at h2
    exact Bool.false_ne_true h2
  have hbc : ConnectionManager.broadcast_to_officers
      (ConnectionManager.connect (ConnectionManager.connect
        (ConnectionManager.connect ⟨[]⟩ u1 a) u2 b) uf c) message
      = [(a, message), (b, message)] := by
    by_cases h12 : u1 = u2
    · subst h12
      have hreg : ConnectionManager.connect (ConnectionManager.connect
          (ConnectionManager.connect ⟨[]⟩ u1 a) u1 b) uf c
          = ⟨[(u1, [a, b]), (uf, [c])]⟩ := by
        simp [ConnectionManager.connect, lookupCM, updateEntry, hu1f]
      rw [hreg]
      simp [ConnectionManager.broadcast_to_officers, broadcastLoop, sendLoop,
        send_json, h1, hf, ha, hb]
    · have hreg : ConnectionManager.connect (ConnectionManager.connect
          (ConnectionManager.connect ⟨[]⟩ u1 a) u2 b) uf c
          = ⟨[(u1, [a]), (u2, [b]), (uf, [c])]⟩ := by
        simp [ConnectionManager.connect, lookupCM, updateEntry, h12, hu1f, hu2f]
      rw [hreg]
      simp [ConnectionManager.broadcast_to_officers, broadcastLoop, sendLoop,
        send_json, h1, h2, hf, ha, hb]
  refine ⟨hbc, ?_⟩
  rw [hbc]
  simp [hca, hcb]

/-- C2 witness: the broadcast theorem applied to two live officer
channels and one farmer channel, with a `notification` frame. -/
theorem broadcast_reaches_exactly_officer_channels_witness :
    ConnectionManager.broadcast_to_officers
        (ConnectionManager.connect (ConnectionManager.connect
          (ConnectionManager.connect ⟨[]⟩ "officer_1" (Channel.mk 1 false))
          "officer_2" (Channel.mk 2 false)) "farmer_1" (Channel.mk 3 false))
        sampleMsg
      = [(Channel.mk 1 false, sampleMsg), (Channel.mk 2 false, sampleMsg)] ∧
    (Channel.mk 3 false, sampleMsg) ∉ ConnectionManager.broadcast_to_officers
        (ConnectionManager.connect (ConnectionManager.connect
          (ConnectionManager.connect ⟨[]⟩ "officer_1" (Channel.mk 1 false))
          "officer_2" (Channel.mk 2 false)) "farmer_1" (Channel.mk 3 false))
        sampleMsg :=
  broadcast_reaches_exactly_officer_channels "officer_1" "officer_2" "farmer_1"
    (Channel.mk 1 false) (Channel.mk 2 false) (Channel.mk 3 false) sampleMsg
    (by decide) (by decide) (by decide) (by decide) (by decide) (by decide)
    (by decide)

/-- C5: for a user with no prior entry, registering channel A then B and
unregistering A leaves exactly B registered and deliverable;
unregistering B then removes the user's entry entirely — the registry
returns to its initial state, the user no longer resolves, and a
subsequent send finds nothing to visit.  Moreover `connect` and
`disconnect` preserve the no-empty-channel-set invariant in general. -/
theorem registry_register_unregister (m0 : ConnectionManager) (uid : String)
    (A B : Channel) (message : WsMessage)
    (hfresh : lookupCM m0.active_connections uid = none)
    (hB : B.fails = false) :
    ConnectionManager.connect (ConnectionManager.connect m0 uid A) uid B
      = ⟨m0.active_connections ++ [(uid, [A, B])]⟩ ∧
    ConnectionManager.disconnect ⟨m0.active_connections ++ [(uid, [A, B])]⟩
        uid A
      = some ⟨m0.active_connections ++ [(uid, [B])]⟩ ∧
    (B, message) ∈ ConnectionManager.send_personal_message
        ⟨m0.active_connections ++ [(uid, [B])]⟩ message uid ∧
    ConnectionManager.disconnect ⟨m0.active_connections ++ [(uid, [B])]⟩
        uid B
      = some m0 ∧
    ConnectionManager.send_personal_message m0 message uid = [] ∧
    (∀ e ∈ m0.active_connections, e.1 ≠ uid) ∧
    (∀ (m : ConnectionManager) (u : String) (ch : Channel),
      noEmptyEntries m → noEmptyEntries (m.connect u ch)) ∧
    (∀ (m m' : ConnectionManager) (u : String) (ch : Channel),
      noEmptyEntries m → m.disconnect u ch = some m' → noEmptyEntries m') := by
  have hall : ∀ e ∈ m0.active_connections, e.1 ≠ uid :=
    lookupCM_eq_none _ _ hfresh
  have hlkA : lookupCM (m0.active_connections ++ [(uid, [A])]) uid
      = some [A] := by
    rw [lookupCM_append_left_none _ _ _ hfresh]
    simp [lookupCM]
  have hlkAB : lookupCM (m0.active_connections ++ [(uid, [A, B])]) uid
      = some [A, B] := by
    rw [lookupCM_append_left_none _ _ _ hfresh]
    simp [lookupCM]
  have hlkB : lookupCM (m0.active_connections ++ [(uid, [B])]) uid
      = some [B] := by
    rw [lookupCM_append_left_none _ _ _ hfresh]
    simp [lookupCM]
  refine ⟨?_, ?_, ?_, ?_, ?_, hall, noEmptyEntries_connect,
    fun m m' u ch h hd => noEmptyEntries_disconnect m m' u ch h hd⟩
  · have c1 : ConnectionManager.connect m0 uid A
        = ⟨m0.active_connections ++ [(uid, [A])]⟩ := by
      unfold ConnectionManager.connect
      rw [hfresh]
    rw [c1]
    simp only [ConnectionManager.connect, hlkA]
    rw [updateEntry_append_fresh _ _ _ _ hall]
    rfl
  · simp only [ConnectionManager.disconnect, hlkAB]
    have hmemA : A ∈ [A, B] := by simp
    rw [if_pos hmemA, List.erase_cons_head]
    rw [if_neg (by simp : ¬([B] : List Channel) = [])]
    rw [updateEntry_append_fresh _ _ _ _ hall]
  · simp only [ConnectionManager.send_personal_message, hlkB]
    simp [sendLoop, send_json, hB]
  · simp only [ConnectionManager.disconnect, hlkB]
    have hmemB : B ∈ [B] := by simp
    rw [if_pos hmemB, List.erase_cons_head]
    rw [if_pos rfl, removeKey_append_fresh _ _ _ hall]
  · simp [ConnectionManager.send_personal_message, hfresh]

/-- C5 witness: the register/unregister theorem applied to an empty
registry, one user and two live channels (the generic invariant
conjuncts are dropped so the statement is closed). -/
theorem registry_register_unregister_witness :
    ConnectionManager.connect
        (ConnectionManager.connect ⟨[]⟩ "farmer_1" (Channel.mk 1 false))
        "farmer_1" (Channel.mk 2 false)
      = ⟨[] ++ [("farmer_1", [Channel.mk 1 false, Channel.mk 2 false])]⟩ ∧
    ConnectionManager.disconnect
        ⟨[] ++ [("farmer_1", [Channel.mk 1 false, Channel.mk 2 false])]⟩
        "farmer_1" (Channel.mk 1 false)
      = some ⟨[] ++ [("farmer_1", [Channel.mk 2 false])]⟩ ∧
    (Channel.mk 2 false, sampleMsg) ∈ ConnectionManager.send_personal_message
        ⟨[] ++ [("farmer_1", [Channel.mk 2 false])]⟩ sampleMsg "farmer_1" ∧
    ConnectionManager.disconnect ⟨[] ++ [("farmer_1", [Channel.mk 2 false])]⟩
        "farmer_1" (Channel.mk 2 false)
      = some ⟨[]⟩ ∧
    ConnectionManager.send_personal_message ⟨[]⟩ sampleMsg "farmer_1" = [] :=
  ((fun h => ⟨h.1, h.2.1, h.2.2.1, h.2.2.2.1, h.2.2.2.2.1⟩ :
      (_ ∧ _ ∧ _ ∧ _ ∧ _ ∧ _ ∧ _ ∧ _) → _)
    (registry_register_unregister ⟨[]⟩ "farmer_1" (Channel.mk 1 false)
      (Channel.mk 2 false) sampleMsg rfl rfl))

/-- C8: sending to a user with zero registered channels delivers nothing
and raises nothing; for a registered user the deliveries are exactly the
non-failing channels — a failing channel is skipped without aborting
delivery to the rest, and the send loop never propagates an exception
(its per-channel `try/except pass` makes it a total function). -/
theorem send_personal_message_isolated_failures (m : ConnectionManager)
    (user_id : String) (message : WsMessage) :
    (lookupCM m.active_connections user_id = none →
      m.send_personal_message message user_id = []) ∧
    ∀ chans, lookupCM m.active_connections user_id = some chans →
      m.send_personal_message message user_id
        = (chans.filter (fun ch => !ch.fails)).map (fun ch => (ch, message)) ∧
      ∀ ch ∈ chans, ch.fails = false →
        (ch, message) ∈ m.send_personal_message message user_id := by
  constructor
  · intro h
    simp [ConnectionManager.send_personal_message, h]
  · intro chans h
    have hspm : m.send_personal_message message user_id
        = sendLoop chans message := by
      simp [ConnectionManager.send_personal_message, h]
    refine ⟨hspm.trans (sendLoop_eq_filter chans message), ?_⟩
    intro ch hch hfl
    rw [hspm, sendLoop_eq_filter]
    exact List.mem_map.mpr
      ⟨ch, List.mem_filter.mpr ⟨hch, by simp [hfl]⟩, rfl⟩

/-- C8 witness: the isolated-failure theorem applied to a registry where
one user holds one dead and one live channel, plus an unknown user. -/
theorem send_personal_message_isolated_failures_witness :
    ConnectionManager.send_personal_message mC8 sampleMsg "ghost" = [] ∧
    ConnectionManager.send_personal_message mC8 sampleMsg "farmer_1"
      = ([Channel.mk 1 true, Channel.mk 2 false].filter
            (fun ch => !ch.fails)).map (fun ch => (ch, sampleMsg)) ∧
    (Channel.mk 2 false, sampleMsg) ∈
      ConnectionManager.send_personal_message mC8 sampleMsg "farmer_1" :=
  ⟨(send_personal_message_isolated_failures mC8 "ghost" sampleMsg).1
      (by decide),
   ((send_personal_message_isolated_failures mC8 "farmer_1" sampleMsg).2
      [Channel.mk 1 true, Channel.mk 2 false] (by decide)).1,
   ((send_personal_message_isolated_failures mC8 "farmer_1" sampleMsg).2
      [Channel.mk 1 true, Channel.mk 2 false] (by decide)).2
      (Channel.mk 2 false) (by decide) rfl⟩

end FarmaSathi
